import Mathlib

/-!
Verification of `src/transcode_rtsp_windows.py`: an ffmpeg-based RTSP
transcoder.  The script holds a static registry of encoding profiles,
resolves a list of requested profile names against it, compiles an ffmpeg
argument vector, and supervises the spawned ffmpeg process.

The Python source is shallowly embedded below.  Python dicts with a fixed
key set become a structure; optional keys (`preset`, `output_fps`,
`*_extra_opts`) become `Option` fields, so that Python's `'key' in profile`
test is `Option.isSome`.  Python ints are `ℤ`; the float field
`max_rate_multiplier` is modelled as `ℚ` (the registry's concrete values
1.3, 2 and 2.5 give the same truncated products over `ℚ` as over IEEE
doubles, namely 665, 384 and 640).
-/

namespace Transcode

/-- One entry of `ALL_STREAM_PROFILES` (a Python dict in the source). -/
structure EncodingProfile where
  name : String
  resolution : String
  video_bitrate : String
  max_rate_multiplier : ℚ
  audio_bitrate : String
  gop_size : ℤ
  preset : Option String
  video_codec : String
  audio_codec : String
  output_fps : Option ℤ
  x265_extra_opts : Option (List String)
  nvenc_extra_opts : Option (List String)
  qsv_extra_opts : Option (List String)
deriving DecidableEq

/-- `RTSP_INPUT_URL` from the source. -/
def RTSP_INPUT_URL : String := "rtsp://192.168.201.72:8080/h264.sdp"

/-- `MEDIAMTX_RTSP_BASE_URL` from the source. -/
def MEDIAMTX_RTSP_BASE_URL : String := "rtsp://localhost:8554/live"

/-- The `high` entry of `ALL_STREAM_PROFILES` (`1.3` as the exact rational
`13/10`; see the module comment). -/
def highProfile : EncodingProfile :=
  { name := "high"
    resolution := "1280x720"
    video_bitrate := "512k"
    max_rate_multiplier := mkRat 13 10
    audio_bitrate := "48k"
    gop_size := 40
    preset := some "superfast"
    video_codec := "libx265"
    audio_codec := "aac"
    output_fps := some 20
    x265_extra_opts := some ["-tune", "zerolatency",
      "-x265-params", "aq-mode=2:aq-strength=0.8:psy-rd=1.5:rdoq=1"]
    nvenc_extra_opts := none
    qsv_extra_opts := none }

/-- The `low` entry of `ALL_STREAM_PROFILES`. -/
def lowProfile : EncodingProfile :=
  { name := "low"
    resolution := "1280x720"
    video_bitrate := "192k"
    max_rate_multiplier := mkRat 2 1
    audio_bitrate := "24k"
    gop_size := 60
    preset := some "superfast"
    video_codec := "libx265"
    audio_codec := "aac"
    output_fps := some 15
    x265_extra_opts := some ["-tune", "zerolatency",
      "-x265-params", "rc-lookahead=10:aq-mode=2:aq-strength=1.0:psy-rd=1.5:rdoq=1"]
    nvenc_extra_opts := none
    qsv_extra_opts := none }

/-- The `quality` entry of `ALL_STREAM_PROFILES`. -/
def qualityProfile : EncodingProfile :=
  { name := "quality"
    resolution := "1280x720"
    video_bitrate := "256k"
    max_rate_multiplier := mkRat 5 2
    audio_bitrate := "32k"
    gop_size := 100
    preset := some "fast"
    video_codec := "libx265"
    audio_codec := "aac"
    output_fps := some 15
    x265_extra_opts := some ["-x265-params",
      "rc-lookahead=30:aq-mode=2:aq-strength=1.0:psy-rd=2.0:rdoq=2:qpmin=10:qpmax=51:nr-intra=8:nr-inter=8"]
    nvenc_extra_opts := none
    qsv_extra_opts := none }

/-- `ALL_STREAM_PROFILES`, in source order. -/
def ALL_STREAM_PROFILES : List EncodingProfile :=
  [highProfile, lowProfile, qualityProfile]

/-! ### The command compiler (`build_ffmpeg_command`, lines 76-136)

The Python function builds `cmd` by successive `cmd.extend(...)` calls; each
call becomes one list below and `build_ffmpeg_command` is their
concatenation, in the source's order. -/

/-- Lines 77-84: the global arguments emitted once. -/
def globalArgs (input_url : String) : List String :=
  ["ffmpeg", "-i", input_url, "-rtsp_transport", "tcp",
   "-threads", "0", "-nostdin", "-loglevel", "info"]

/-- Lines 87-90: stream-mapping directives, identical for every profile. -/
def mapArgs : List String := ["-map", "0:v:0", "-map", "0:a:0?"]

/-- Lines 95-98: the nvenc/qsv `if`/`elif`.  A branch fires only when the
codec equals the family's name and the option list is present. -/
def hwExtraOpts (p : EncodingProfile) : List String :=
  if p.video_codec = "hevc_nvenc" ∧ p.nvenc_extra_opts.isSome then
    p.nvenc_extra_opts.getD []
  else if p.video_codec = "hevc_qsv" ∧ p.qsv_extra_opts.isSome then
    p.qsv_extra_opts.getD []
  else []

/-- Lines 92-98: the x265 opts are emitted whenever the key is present
(line 92 tests only key presence, not the codec), then the nvenc/qsv
`if`/`elif` runs independently. -/
def extraOpts (p : EncodingProfile) : List String :=
  (p.x265_extra_opts.getD []) ++ hwExtraOpts p

/-- Line 100: video codec selection. -/
def codecArgs (p : EncodingProfile) : List String := ["-c:v", p.video_codec]

/-- Lines 102-103: preset, when the key is present. -/
def presetArgs (p : EncodingProfile) : List String :=
  match p.preset with
  | some pr => ["-preset", pr]
  | none => []

/-- `s.replace('k', '')` on line 105: drop every `k` character. -/
def stripK (s : String) : String :=
  String.mk (s.toList.filter (fun c => c ≠ 'k'))

/-- Accumulator pass of `pyInt?`: value of a non-empty digit string. -/
def digitsAux : List Char → ℕ → Option ℕ
  | [], acc => some acc
  | c :: cs, acc =>
    if c.isDigit then digitsAux cs (acc * 10 + (c.toNat - 48)) else none

/-- Python's `int(str)` on the strings this program feeds it: an optional
minus sign followed by decimal digits.  (Python additionally strips
whitespace and accepts `+` and `_` separators; none of those occur here.)
`none` models the `ValueError` Python raises on a malformed string. -/
def pyInt? (s : String) : Option ℤ :=
  match s.toList with
  | [] => none
  | '-' :: cs => if cs.isEmpty then none else (digitsAux cs 0).map (fun n => -(n : ℤ))
  | cs => (digitsAux cs 0).map (fun n => (n : ℤ))

/-- Line 105: `base_bitrate_k = int(profile['video_bitrate'].replace('k', ''))`.
The `getD 0` default is only a totalisation of Python's `ValueError` and is
irrelevant whenever the string parses. -/
def base_bitrate_k (p : EncodingProfile) : ℤ :=
  (pyInt? (stripK p.video_bitrate)).getD 0

/-- Line 106: `max_rate_k = int(base_bitrate_k * profile['max_rate_multiplier'])`.
Python's `int(x)` truncates toward zero; the exact product
`b · (num/den)` is the ratio `(b·num)/den` with positive denominator, whose
truncation toward zero is `Int.tdiv`.  (`maxrate_floor` below proves this
equal to `⌊b · multiplier⌋` whenever `b ≥ 0` and `multiplier ≥ 1`.) -/
def max_rate_k (p : EncodingProfile) : ℤ :=
  (base_bitrate_k p * p.max_rate_multiplier.num).tdiv (p.max_rate_multiplier.den : ℤ)

/-- Line 107: `buf_size_k = max_rate_k * 2`. -/
def buf_size_k (p : EncodingProfile) : ℤ := max_rate_k p * 2

/-- Lines 109-118: the rate-control block. -/
def rateArgs (p : EncodingProfile) : List String :=
  ["-b:v", p.video_bitrate,
   "-maxrate", toString (max_rate_k p) ++ "k",
   "-bufsize", toString (buf_size_k p) ++ "k",
   "-s", p.resolution,
   "-g", toString p.gop_size,
   "-keyint_min", toString p.gop_size,
   "-sc_threshold", "0",
   "-pix_fmt", "yuv420p"]

/-- Lines 120-121: output frame-rate cap, when the key is present. -/
def fpsArgs (p : EncodingProfile) : List String :=
  match p.output_fps with
  | some f => ["-r", toString f]
  | none => []

/-- Lines 123-129: the audio block. -/
def audioArgs (p : EncodingProfile) : List String :=
  ["-c:a", p.audio_codec, "-b:a", p.audio_bitrate,
   "-ac", "2", "-ar", "48000",
   "-af", "aresample=async=1000:first_pts=0"]

/-- Lines 131-134: the output sink directive,
`['-f', 'rtsp', f'{mediamtx_base_url}/{profile["name"]}']`. -/
def sinkArgs (mediamtx_base_url : String) (p : EncodingProfile) : List String :=
  ["-f", "rtsp", mediamtx_base_url ++ "/" ++ p.name]

/-- Lines 86-134: everything one loop iteration appends for one profile. -/
def profileArgs (mediamtx_base_url : String) (p : EncodingProfile) : List String :=
  mapArgs ++ extraOpts p ++ codecArgs p ++ presetArgs p ++ rateArgs p ++
    fpsArgs p ++ audioArgs p ++ sinkArgs mediamtx_base_url p

/-- The `for` loop of lines 86-134 (the index `i` is never used). -/
def perProfileArgs (mediamtx_base_url : String) : List EncodingProfile → List String
  | [] => []
  | p :: ps => profileArgs mediamtx_base_url p ++ perProfileArgs mediamtx_base_url ps

/-- `build_ffmpeg_command(input_url, profiles_to_use, mediamtx_base_url)`. -/
def build_ffmpeg_command (input_url : String) (profiles_to_use : List EncodingProfile)
    (mediamtx_base_url : String) : List String :=
  globalArgs input_url ++ perProfileArgs mediamtx_base_url profiles_to_use

/-! ### Output-sink directives of a compiled vector

ffmpeg reads `-f rtsp <destination>` as one output-sink directive.
`scanSinks` walks an argument vector left to right and collects the
destination of every such directive. -/

/-- Destinations of the output-sink directives (`-f rtsp <dest>`) of an
argument vector, left to right. -/
def scanSinks : List String → List String
  | [] => []
  | [_] => []
  | [_, _] => []
  | a :: b :: c :: rest =>
    if a = "-f" then
      if b = "rtsp" then c :: scanSinks rest
      else scanSinks (b :: c :: rest)
    else scanSinks (b :: c :: rest)

/-- An element other than `-f` is skipped by the scan. -/
theorem scanSinks_cons_ne (a : String) (h : a ≠ "-f") (l : List String) :
    scanSinks (a :: l) = scanSinks l := by
  match l with
  | [] => simp [scanSinks]
  | [_] => simp [scanSinks]
  | _ :: _ :: _ => simp [scanSinks, h]

/-- The global arguments contain no sink directive, whatever the input URL. -/
theorem scanSinks_globalArgs (input_url : String) (rest : List String) :
    scanSinks (globalArgs input_url ++ rest) = scanSinks rest := by
  have htail : scanSinks ("-loglevel" :: "info" :: rest) = scanSinks rest := by
    rw [scanSinks_cons_ne _ (by decide), scanSinks_cons_ne _ (by decide)]
  rcases eq_or_ne input_url "-f" with h | h
  · subst h
    simp only [globalArgs, List.cons_append, List.nil_append]
    simp [scanSinks, htail]
  · simp only [globalArgs, List.cons_append, List.nil_append]
    simp [scanSinks, h, htail]

/-- The blockwise scan of the `high` profile's arguments: one sink,
targeting `base/high`. -/
theorem scanSinks_profile_high (base : String) (rest : List String) :
    scanSinks (profileArgs base highProfile ++ rest) =
      (base ++ "/" ++ highProfile.name) :: scanSinks rest := by
  have h1 : extraOpts highProfile = ["-tune", "zerolatency",
      "-x265-params", "aq-mode=2:aq-strength=0.8:psy-rd=1.5:rdoq=1"] := by decide
  have h2 : presetArgs highProfile = ["-preset", "superfast"] := by decide
  have h3 : rateArgs highProfile =
    ["-b:v", "512k", "-maxrate", "665k", "-bufsize", "1330k", "-s",
     "1280x720", "-g", "40", "-keyint_min", "40", "-sc_threshold", "0", "-pix_fmt",
     "yuv420p"] := by decide
  have h4 : fpsArgs highProfile = ["-r", "20"] := by decide
  have h5 : codecArgs highProfile = ["-c:v", "libx265"] := by decide
  have h6 : audioArgs highProfile = ["-c:a", "aac", "-b:a", "48k", "-ac", "2",
      "-ar", "48000", "-af", "aresample=async=1000:first_pts=0"] := by decide
  have h7 : highProfile.name = "high" := by decide
  simp only [profileArgs, mapArgs, sinkArgs, h1, h2, h3, h4, h5, h6, h7,
    List.cons_append, List.nil_append, List.append_assoc]
  simp [scanSinks]

/-- The blockwise scan of the `low` profile's arguments: one sink,
targeting `base/low`. -/
theorem scanSinks_profile_low (base : String) (rest : List String) :
    scanSinks (profileArgs base lowProfile ++ rest) =
      (base ++ "/" ++ lowProfile.name) :: scanSinks rest := by
  have h1 : extraOpts lowProfile = ["-tune", "zerolatency",
      "-x265-params", "rc-lookahead=10:aq-mode=2:aq-strength=1.0:psy-rd=1.5:rdoq=1"] := by decide
  have h2 : presetArgs lowProfile = ["-preset", "superfast"] := by decide
  have h3 : rateArgs lowProfile =
    ["-b:v", "192k", "-maxrate", "384k", "-bufsize", "768k", "-s",
     "1280x720", "-g", "60", "-keyint_min", "60", "-sc_threshold", "0", "-pix_fmt",
     "yuv420p"] := by decide
  have h4 : fpsArgs lowProfile = ["-r", "15"] := by decide
  have h5 : codecArgs lowProfile = ["-c:v", "libx265"] := by decide
  have h6 : audioArgs lowProfile = ["-c:a", "aac", "-b:a", "24k", "-ac", "2",
      "-ar", "48000", "-af", "aresample=async=1000:first_pts=0"] := by decide
  have h7 : lowProfile.name = "low" := by decide
  simp only [profileArgs, mapArgs, sinkArgs, h1, h2, h3, h4, h5, h6, h7,
    List.cons_append, List.nil_append, List.append_assoc]
  simp [scanSinks]

/-- The blockwise scan of the `quality` profile's arguments: one sink,
targeting `base/quality`. -/
theorem scanSinks_profile_quality (base : String) (rest : List String) :
    scanSinks (profileArgs base qualityProfile ++ rest) =
      (base ++ "/" ++ qualityProfile.name) :: scanSinks rest := by
  have h1 : extraOpts qualityProfile = ["-x265-params",
      "rc-lookahead=30:aq-mode=2:aq-strength=1.0:psy-rd=2.0:rdoq=2:qpmin=10:qpmax=51:nr-intra=8:nr-inter=8"] := by decide
  have h2 : presetArgs qualityProfile = ["-preset", "fast"] := by decide
  have h3 : rateArgs qualityProfile =
    ["-b:v", "256k", "-maxrate", "640k", "-bufsize", "1280k", "-s",
     "1280x720", "-g", "100", "-keyint_min", "100", "-sc_threshold", "0", "-pix_fmt",
     "yuv420p"] := by decide
  have h4 : fpsArgs qualityProfile = ["-r", "15"] := by decide
  have h5 : codecArgs qualityProfile = ["-c:v", "libx265"] := by decide
  have h6 : audioArgs qualityProfile = ["-c:a", "aac", "-b:a", "32k", "-ac", "2",
      "-ar", "48000", "-af", "aresample=async=1000:first_pts=0"] := by decide
  have h7 : qualityProfile.name = "quality" := by decide
  simp only [profileArgs, mapArgs, sinkArgs, h1, h2, h3, h4, h5, h6, h7,
    List.cons_append, List.nil_append, List.append_assoc]
  simp [scanSinks]

/-- Scanning the per-profile segment of a compiled vector yields exactly one
destination per registry profile, in list order. -/
theorem scanSinks_perProfileArgs (base : String) (ps : List EncodingProfile)
    (h : ∀ p ∈ ps, p ∈ ALL_STREAM_PROFILES) (rest : List String) :
    scanSinks (perProfileArgs base ps ++ rest) =
      ps.map (fun p => base ++ "/" ++ p.name) ++ scanSinks rest := by
  induction ps with
  | nil => simp [perProfileArgs]
  | cons p ps ih =>
    have hp : p ∈ ALL_STREAM_PROFILES := h p (by simp)
    have hps : ∀ q ∈ ps, q ∈ ALL_STREAM_PROFILES := fun q hq => h q (by simp [hq])
    have hp3 : p = highProfile ∨ p = lowProfile ∨ p = qualityProfile := by
      simpa [ALL_STREAM_PROFILES] using hp
    rcases hp3 with rfl | rfl | rfl
    · rw [perProfileArgs, List.append_assoc, scanSinks_profile_high, ih hps,
        List.map_cons, List.cons_append]
    · rw [perProfileArgs, List.append_assoc, scanSinks_profile_low, ih hps,
        List.map_cons, List.cons_append]
    · rw [perProfileArgs, List.append_assoc, scanSinks_profile_quality, ih hps,
        List.map_cons, List.cons_append]

end Transcode

namespace Transcode

/-- C1: for every non-empty selection of registry profiles, the compiled
argument vector contains exactly one output-sink directive per selected
profile, in selection order, each targeting `baseOutputUrl/profileName`:
its sink-destination scan is precisely the ordered list
`base ++ "/" ++ name` over the selection. -/
theorem C1_sink_directives (input_url mediamtx_base_url : String)
    (ps : List EncodingProfile) (hne : ps ≠ [])
    (hmem : ∀ p ∈ ps, p ∈ ALL_STREAM_PROFILES) :
    scanSinks (build_ffmpeg_command input_url ps mediamtx_base_url) =
      ps.map (fun p => mediamtx_base_url ++ "/" ++ p.name) := by
  have h0 := scanSinks_perProfileArgs mediamtx_base_url ps hmem []
  rw [List.append_nil] at h0
  rw [build_ffmpeg_command, scanSinks_globalArgs, h0]
  simp [scanSinks]

/-- Witness for C1 at the selection `[high, low]` and the source's URLs. -/
theorem C1_sink_directives_witness :
    ([highProfile, lowProfile] ≠ ([] : List EncodingProfile)) ∧
    (∀ p ∈ [highProfile, lowProfile], p ∈ ALL_STREAM_PROFILES) ∧
    scanSinks (build_ffmpeg_command RTSP_INPUT_URL [highProfile, lowProfile]
        MEDIAMTX_RTSP_BASE_URL) =
      ["rtsp://localhost:8554/live/high", "rtsp://localhost:8554/live/low"] :=
  ⟨by decide, by decide,
    C1_sink_directives RTSP_INPUT_URL MEDIAMTX_RTSP_BASE_URL
      [highProfile, lowProfile] (by decide) (by decide)⟩

end Transcode

namespace Transcode

/-- Truncation toward zero agrees with `⌊·⌋` on the non-negative product
`b · q`: the compiled `max_rate_k` is the floor the spec prescribes. -/
theorem maxrate_eq_floor (p : EncodingProfile) (n : ℤ)
    (hparse : pyInt? (stripK p.video_bitrate) = some n) (hn : 0 ≤ n)
    (hm : 1 ≤ p.max_rate_multiplier) :
    max_rate_k p = ⌊(n : ℚ) * p.max_rate_multiplier⌋ := by
  have hb : base_bitrate_k p = n := by simp [base_bitrate_k, hparse]
  have hnum : 0 ≤ p.max_rate_multiplier.num :=
    Rat.num_nonneg.mpr (le_trans zero_le_one hm)
  have hbn : 0 ≤ n * p.max_rate_multiplier.num := mul_nonneg hn hnum
  have hd : (0 : ℤ) ≤ (p.max_rate_multiplier.den : ℤ) := Int.natCast_nonneg _
  have hcast : (n : ℚ) * p.max_rate_multiplier =
      ((n * p.max_rate_multiplier.num : ℤ) : ℚ) /
        ((p.max_rate_multiplier.den : ℕ) : ℚ) := by
    rw [show ((n * p.max_rate_multiplier.num : ℤ) : ℚ) /
        ((p.max_rate_multiplier.den : ℕ) : ℚ) =
        (n : ℚ) * ((p.max_rate_multiplier.num : ℚ) /
          (p.max_rate_multiplier.den : ℚ)) by push_cast; ring]
    rw [Rat.num_div_den]
  rw [max_rate_k, hb, Int.tdiv_eq_ediv hbn hd, hcast,
    Rat.floor_intCast_div_natCast]

/-- `rateArgs` carries the maxrate/bufsize pair contiguously. -/
theorem maxrate_bufsize_infix_rateArgs (p : EncodingProfile) :
    ["-maxrate", toString (max_rate_k p) ++ "k",
     "-bufsize", toString (buf_size_k p) ++ "k"] <:+: rateArgs p :=
  ⟨["-b:v", p.video_bitrate],
   ["-s", p.resolution, "-g", toString p.gop_size, "-keyint_min",
    toString p.gop_size, "-sc_threshold", "0", "-pix_fmt", "yuv420p"], rfl⟩

/-- `rateArgs` is an infix of the profile's argument block. -/
theorem rateArgs_infix_profileArgs (base : String) (p : EncodingProfile) :
    rateArgs p <:+: profileArgs base p :=
  ⟨mapArgs ++ extraOpts p ++ codecArgs p ++ presetArgs p,
   fpsArgs p ++ audioArgs p ++ sinkArgs base p, by simp [profileArgs]⟩

/-- A selected profile's argument block is an infix of the loop's output. -/
theorem profileArgs_infix_perProfileArgs (base : String) (p : EncodingProfile)
    (ps : List EncodingProfile) (hp : p ∈ ps) :
    profileArgs base p <:+: perProfileArgs base ps := by
  induction ps with
  | nil => cases hp
  | cons q ps ih =>
    rcases List.mem_cons.mp hp with rfl | hmem
    · exact ⟨[], perProfileArgs base ps, by simp [perProfileArgs]⟩
    · obtain ⟨s, t, hst⟩ := ih hmem
      exact ⟨profileArgs base q ++ s, t, by
        rw [perProfileArgs, ← hst]; simp [List.append_assoc]⟩

/-- C2: for every profile whose video bitrate parses as a non-negative
integer count of kbps and whose multiplier is at least 1, the compiled
vector carries `-maxrate ⌊kbps · multiplier⌋k` and, right next to it,
`-bufsize (2·maxrate)k`. -/
theorem C2_maxrate_bufsize (input_url mediamtx_base_url : String)
    (ps : List EncodingProfile) (p : EncodingProfile) (hp : p ∈ ps) (n : ℤ)
    (hparse : pyInt? (stripK p.video_bitrate) = some n) (hn : 0 ≤ n)
    (hm : 1 ≤ p.max_rate_multiplier) :
    ["-maxrate", toString ⌊(n : ℚ) * p.max_rate_multiplier⌋ ++ "k",
     "-bufsize", toString (2 * ⌊(n : ℚ) * p.max_rate_multiplier⌋) ++ "k"] <:+:
      build_ffmpeg_command input_url ps mediamtx_base_url := by
  have hmr : max_rate_k p = ⌊(n : ℚ) * p.max_rate_multiplier⌋ :=
    maxrate_eq_floor p n hparse hn hm
  have hbs : buf_size_k p = 2 * ⌊(n : ℚ) * p.max_rate_multiplier⌋ := by
    rw [buf_size_k, hmr, mul_comm]
  have h1 := maxrate_bufsize_infix_rateArgs p
  rw [hmr, hbs] at h1
  have h2 := h1.trans ((rateArgs_infix_profileArgs mediamtx_base_url p).trans
    (profileArgs_infix_perProfileArgs mediamtx_base_url p ps hp))
  obtain ⟨s, t, hst⟩ := h2
  exact ⟨globalArgs input_url ++ s, t, by
    rw [build_ffmpeg_command, ← hst]; simp [List.append_assoc]⟩

/-- Witness for C2 at the `high` profile (512 kbps, multiplier 1.3):
maxrate 665k, bufsize 1330k. -/
theorem C2_maxrate_bufsize_witness :
    (highProfile ∈ [highProfile]) ∧
    pyInt? (stripK highProfile.video_bitrate) = some 512 ∧
    (0 : ℤ) ≤ 512 ∧ 1 ≤ highProfile.max_rate_multiplier ∧
    ["-maxrate", toString ⌊(512 : ℚ) * highProfile.max_rate_multiplier⌋ ++ "k",
     "-bufsize", toString (2 * ⌊(512 : ℚ) * highProfile.max_rate_multiplier⌋) ++ "k"] <:+:
      build_ffmpeg_command RTSP_INPUT_URL [highProfile] MEDIAMTX_RTSP_BASE_URL :=
  ⟨by decide, by decide, by decide, by decide,
    C2_maxrate_bufsize RTSP_INPUT_URL MEDIAMTX_RTSP_BASE_URL [highProfile]
      highProfile (by decide) 512 (by decide) (by decide) (by decide)⟩

end Transcode

namespace Transcode

/-- A profile for the nvenc codec family that still carries an
`x265_extra_opts` entry, as the defensive code of lines 92-98 allows. -/
def nvencProbeProfile : EncodingProfile :=
  { name := "nvtest"
    resolution := "1280x720"
    video_bitrate := "512k"
    max_rate_multiplier := mkRat 13 10
    audio_bitrate := "48k"
    gop_size := 40
    preset := some "superfast"
    video_codec := "hevc_nvenc"
    audio_codec := "aac"
    output_fps := some 20
    x265_extra_opts := some ["-tune", "zerolatency"]
    nvenc_extra_opts := some ["-rc", "cbr"]
    qsv_extra_opts := none }

/-- C3 is false as stated: for a profile whose video codec is `hevc_nvenc`
and which defines both an x265 and an nvenc option set, the compiler emits
both sets — two codec-family sets, and the x265 set despite the codec not
matching the x265 family. -/
theorem C3_counterexample :
    nvencProbeProfile.video_codec = "hevc_nvenc" ∧
    nvencProbeProfile.x265_extra_opts = some ["-tune", "zerolatency"] ∧
    nvencProbeProfile.nvenc_extra_opts = some ["-rc", "cbr"] ∧
    extraOpts nvencProbeProfile = ["-tune", "zerolatency"] ++ ["-rc", "cbr"] := by
  decide

/-- C3 amended: the x265 set is emitted whenever the profile defines it,
regardless of the video codec; of the remaining (nvenc/qsv) sets at most
one is emitted, and only when the video codec names that family; with no
x265 entry and no matching hardware family, nothing is emitted. -/
theorem C3_amended_extra_opts (p : EncodingProfile) :
    extraOpts p = p.x265_extra_opts.getD [] ++ hwExtraOpts p ∧
    (hwExtraOpts p ≠ [] →
      (p.video_codec = "hevc_nvenc" ∧ hwExtraOpts p = p.nvenc_extra_opts.getD []) ∨
      (p.video_codec = "hevc_qsv" ∧ hwExtraOpts p = p.qsv_extra_opts.getD [])) ∧
    (p.x265_extra_opts = none → p.video_codec ≠ "hevc_nvenc" →
      p.video_codec ≠ "hevc_qsv" → extraOpts p = []) := by
  refine ⟨rfl, ?_, ?_⟩
  · rw [hwExtraOpts]
    split_ifs with h1 h2
    · exact fun _ => Or.inl ⟨h1.1, rfl⟩
    · exact fun _ => Or.inr ⟨h2.1, rfl⟩
    · exact fun h => absurd rfl h
  · intro hx h1 h2
    rw [extraOpts, hx, hwExtraOpts]
    simp [h1, h2]

/-- Witness for C3's amended claim at the nvenc probe profile. -/
theorem C3_amended_extra_opts_witness :
    hwExtraOpts nvencProbeProfile ≠ [] ∧
    ((nvencProbeProfile.video_codec = "hevc_nvenc" ∧
        hwExtraOpts nvencProbeProfile = nvencProbeProfile.nvenc_extra_opts.getD []) ∨
      (nvencProbeProfile.video_codec = "hevc_qsv" ∧
        hwExtraOpts nvencProbeProfile = nvencProbeProfile.qsv_extra_opts.getD [])) :=
  ⟨by decide, (C3_amended_extra_opts nvencProbeProfile).2.1 (by decide)⟩

/-! ### The selection resolver (`run_ffmpeg_transcoder`, lines 142-156) -/

/-- The inner loop of lines 145-150: first registry entry whose `name`
equals the requested one. -/
def lookupProfile (name : String) : Option EncodingProfile :=
  ALL_STREAM_PROFILES.find? (fun p => p.name == name)

/-- Lines 142-152: walk the requested names in order; append the resolved
profile on success, record a warning (second component) for an unknown
name and continue. -/
def resolveProfiles : List String → List EncodingProfile × List String
  | [] => ([], [])
  | name :: rest =>
    let r := resolveProfiles rest
    match lookupProfile name with
    | some p => (p :: r.1, r.2)
    | none => (r.1, name :: r.2)

/-- C4: the resolver returns the profiles of exactly the names found in the
registry, in the caller's order with duplicates preserved (its name trace
is the sublist of requested names that resolve), warns once per absent
name instead of aborting, and every returned profile is a registry entry. -/
theorem C4_resolver_order_preserving (names : List String) :
    ((resolveProfiles names).1.map (fun p => p.name) =
      names.filter (fun n => (lookupProfile n).isSome)) ∧
    ((resolveProfiles names).2 =
      names.filter (fun n => (lookupProfile n).isNone)) ∧
    (∀ p ∈ (resolveProfiles names).1, p ∈ ALL_STREAM_PROFILES) := by
  induction names with
  | nil => exact ⟨rfl, rfl, by intro p hp; cases hp⟩
  | cons n rest ih =>
    obtain ⟨ih1, ih2, ih3⟩ := ih
    cases h : lookupProfile n with
    | none =>
      refine ⟨?_, ?_, ?_⟩
      · simpa [resolveProfiles, h, List.filter_cons] using ih1
      · simpa [resolveProfiles, h, List.filter_cons] using ih2
      · intro p hp
        exact ih3 p (by simpa [resolveProfiles, h] using hp)
    | some p =>
      have hname : p.name = n := by
        have := List.find?_some h
        simpa using this
      refine ⟨?_, ?_, ?_⟩
      · simpa [resolveProfiles, h, List.filter_cons, hname] using ih1
      · simpa [resolveProfiles, h, List.filter_cons] using ih2
      · intro q hq
        rcases (by simpa [resolveProfiles, h] using hq : q = p ∨ q ∈ (resolveProfiles rest).1) with rfl | hq2
        · exact List.mem_of_find?_eq_some h
        · exact ih3 q hq2

end Transcode

namespace Transcode

/-! ### The process supervisor (`run_ffmpeg_transcoder`, lines 174-218)

The supervisor's control flow is straight-line Python with exceptions.  The
environment below fixes every point where the outside world can intervene:
whether `Popen` succeeds, whether a `KeyboardInterrupt` arrives during
`process.wait()`, the child's exit code, whether the child obeys
`terminate()` within the 10-second `wait(timeout=10)`, and whether a second
`KeyboardInterrupt` arrives during that timed wait.  `supervise` returns
the ordered trace of process-control actions the code performs plus the
final outcome of the `try/except/finally`. -/

/-- Environment of one supervised run: the choices the outside world makes
at each blocking point of lines 174-218. -/
structure SupervisorEnv where
  spawnOk : Bool
  interruptDuringWait : Bool
  exitCode : ℤ
  gracefulWithinTimeout : Bool
  secondInterruptDuringGrace : Bool
deriving DecidableEq

/-- Process-control actions of lines 176-218, in the order performed. -/
inductive Act where
  | spawn (cmd : List String)
  | startDrains
  | waitChild
  | terminate
  | waitTimeout (secs : ℕ)
  | kill
  | waitAfterKill
  | joinDrains
deriving DecidableEq

/-- How the `try/except/finally` of lines 175-218 ends. -/
inductive SupOutcome where
  | exited (code : ℤ)
  | stopped
  | teardownNameError
  | secondInterruptEscaped
deriving DecidableEq

/-- Lines 174-218, branch by branch.

* `Popen` (line 176) fails: the raised `OSError` reaches
  `except Exception` (line 210), which logs it; `process` is still `None`
  so no `kill` (lines 212-213).  The `finally` (lines 214-218) then reads
  `stdout_thread`, a local that is only assigned on line 187 — after the
  failed `Popen` — so Python raises `UnboundLocalError` out of the
  function: `teardownNameError`.
* no interrupt: `process.wait()` (line 195) returns, the exit code is
  logged (line 197) and the `finally` joins both drain threads.
* `KeyboardInterrupt` during `process.wait()` with the child still running:
  the handler (lines 199-209) calls `terminate()` then
  `process.wait(timeout=10)` (line 204).
  * A second `KeyboardInterrupt` delivered during that timed wait is
    caught neither by `except TimeoutExpired` (line 205) nor by the
    already-active `except KeyboardInterrupt`, so it propagates; only the
    `finally` joins run and `kill()` (line 207) is skipped:
    `secondInterruptEscaped`.
  * Child exits within the timeout: the handler completes without `kill`.
  * `TimeoutExpired`: warn, `kill()` (line 207), `wait()` (line 208). -/
def supervise (env : SupervisorEnv) (cmd : List String) : List Act × SupOutcome :=
  if !env.spawnOk then
    ([Act.spawn cmd], SupOutcome.teardownNameError)
  else if !env.interruptDuringWait then
    ([Act.spawn cmd, Act.startDrains, Act.waitChild, Act.joinDrains],
      SupOutcome.exited env.exitCode)
  else if env.secondInterruptDuringGrace then
    ([Act.spawn cmd, Act.startDrains, Act.waitChild, Act.terminate,
      Act.waitTimeout 10, Act.joinDrains], SupOutcome.secondInterruptEscaped)
  else if env.gracefulWithinTimeout then
    ([Act.spawn cmd, Act.startDrains, Act.waitChild, Act.terminate,
      Act.waitTimeout 10, Act.joinDrains], SupOutcome.stopped)
  else
    ([Act.spawn cmd, Act.startDrains, Act.waitChild, Act.terminate,
      Act.waitTimeout 10, Act.kill, Act.waitAfterKill, Act.joinDrains],
      SupOutcome.stopped)

/-- Result of one `run_ffmpeg_transcoder` call.  `noValidProfiles` is the
early `return` of line 156: it carries no trace because nothing was
compiled and no process-control action was performed. -/
inductive RunResult where
  | noValidProfiles
  | ran (acts : List Act) (out : SupOutcome)
deriving DecidableEq

/-- `run_ffmpeg_transcoder(selected_profile_names)` (lines 138-218):
resolve the names, bail out on an empty resolution (lines 154-156),
otherwise compile (line 158) and supervise the child process. -/
def run_ffmpeg_transcoder (env : SupervisorEnv)
    (selected_profile_names : List String) : RunResult :=
  let profiles_to_run := (resolveProfiles selected_profile_names).1
  if profiles_to_run.isEmpty then RunResult.noValidProfiles
  else
    let r := supervise env
      (build_ffmpeg_command RTSP_INPUT_URL profiles_to_run MEDIAMTX_RTSP_BASE_URL)
    RunResult.ran r.1 r.2

/-- When no requested name resolves, the resolver returns no profiles. -/
theorem resolveProfiles_all_unknown (names : List String)
    (h : ∀ n ∈ names, lookupProfile n = none) :
    (resolveProfiles names).1 = [] := by
  induction names with
  | nil => rfl
  | cons n rest ih =>
    have hn := h n (by simp)
    have hrest : ∀ m ∈ rest, lookupProfile m = none := fun m hm => h m (by simp [hm])
    simp [resolveProfiles, hn, ih hrest]

/-- C5: when no requested name resolves against the registry, the run ends
in the fatal no-valid-profiles condition — no command is compiled and no
process-control action (in particular no spawn) happens, whatever the
environment would have done. -/
theorem C5_no_valid_profiles (env : SupervisorEnv) (names : List String)
    (h : ∀ n ∈ names, lookupProfile n = none) :
    run_ffmpeg_transcoder env names = RunResult.noValidProfiles := by
  simp [run_ffmpeg_transcoder, resolveProfiles_all_unknown names h]

/-- Witness for C5 at the spec's scenario, selection `["bogus"]`. -/
theorem C5_no_valid_profiles_witness :
    (∀ n ∈ ["bogus"], lookupProfile n = none) ∧
    run_ffmpeg_transcoder ⟨true, false, 0, true, false⟩ ["bogus"] =
      RunResult.noValidProfiles :=
  ⟨by decide, C5_no_valid_profiles ⟨true, false, 0, true, false⟩ ["bogus"] (by decide)⟩

/-- C6's divergence, evaluated: when `Popen` fails, the run attempts
exactly one spawn, never kills and never retries — but the `finally`
block's reference to the unbound `stdout_thread` raises `UnboundLocalError`
during teardown, an uncaught error the claim rules out. -/
theorem C6_spawn_failure_teardown :
    supervise ⟨false, false, 0, false, false⟩ ["ffmpeg"] =
      ([Act.spawn ["ffmpeg"]], SupOutcome.teardownNameError) ∧
    Act.kill ∉ (supervise ⟨false, false, 0, false, false⟩ ["ffmpeg"]).1 := by
  decide

/-- C8: on an interrupt while the child runs, the supervisor requests
graceful termination, waits up to 10 time units, and forces a kill (then
waits for it) exactly when the timeout elapses — never when the child
exits in time. -/
theorem C8_graceful_then_forced (env : SupervisorEnv) (cmd : List String)
    (h1 : env.spawnOk = true) (h2 : env.interruptDuringWait = true)
    (h3 : env.secondInterruptDuringGrace = false) :
    (env.gracefulWithinTimeout = true →
      (supervise env cmd).1 = [Act.spawn cmd, Act.startDrains, Act.waitChild,
        Act.terminate, Act.waitTimeout 10, Act.joinDrains] ∧
      Act.kill ∉ (supervise env cmd).1) ∧
    (env.gracefulWithinTimeout = false →
      (supervise env cmd).1 = [Act.spawn cmd, Act.startDrains, Act.waitChild,
        Act.terminate, Act.waitTimeout 10, Act.kill, Act.waitAfterKill,
        Act.joinDrains]) := by
  refine ⟨fun h4 => ?_, fun h4 => ?_⟩ <;> simp [supervise, h1, h2, h3, h4]

/-- Witness for C8: the graceful branch at a concrete environment. -/
theorem C8_graceful_then_forced_witness :
    (supervise ⟨true, true, 0, true, false⟩ ["ffmpeg"]).1 =
      [Act.spawn ["ffmpeg"], Act.startDrains, Act.waitChild, Act.terminate,
       Act.waitTimeout 10, Act.joinDrains] ∧
    Act.kill ∉ (supervise ⟨true, true, 0, true, false⟩ ["ffmpeg"]).1 :=
  (C8_graceful_then_forced ⟨true, true, 0, true, false⟩ ["ffmpeg"] rfl rfl rfl).1 rfl

/-- C9's divergence, evaluated: with the child ignoring `terminate` and a
second interrupt arriving during the 10-unit graceful wait, the
termination sequence does not run to completion — the forced kill is
skipped and the second `KeyboardInterrupt` escapes the supervisor. -/
theorem C9_second_interrupt_skips_kill :
    Act.terminate ∈ (supervise ⟨true, true, 0, false, true⟩ ["ffmpeg"]).1 ∧
    Act.kill ∉ (supervise ⟨true, true, 0, false, true⟩ ["ffmpeg"]).1 ∧
    (supervise ⟨true, true, 0, false, true⟩ ["ffmpeg"]).2 =
      SupOutcome.secondInterruptEscaped := by
  decide

end Transcode

namespace Transcode

/-! ### Diagnostic-line classification (`log_stream_output`, lines 178-185) -/

/-- Log levels used by lines 180-185. -/
inductive LogLevel where
  | info
  | warning
  | debug
deriving DecidableEq

/-- Python's substring test `pat in s`: some tail of `s` starts with
`pat`. -/
def strContains (s pat : String) : Bool :=
  s.toList.tails.any (fun t => pat.toList.isPrefixOf t)

/-- Python's `line.lower()`.  All the keywords of line 182 are ASCII, for
which the per-character fold is exact. -/
def lowerStr (s : String) : String :=
  String.mk (s.toList.map Char.toLower)

/-- Lines 180-185: the `if`/`elif`/`else` classifying one diagnostic line.
The progress test (line 180) is case-sensitive on the raw line; the
error-keyword tests (line 182) run on `line.lower()`. -/
def classify_line (line : String) : LogLevel :=
  if strContains line "frame=" || strContains line "speed=" then LogLevel.info
  else if strContains (lowerStr line) "error" || strContains (lowerStr line) "failed" ||
      strContains (lowerStr line) "no such file or directory" ||
      strContains (lowerStr line) "invalid argument" then LogLevel.warning
  else LogLevel.debug

/-- Specification-side reading of "contains a progress marker". -/
def HasProgressMarker (line : String) : Prop :=
  "frame=".toList <:+: line.toList ∨ "speed=".toList <:+: line.toList

/-- Specification-side reading of "contains an error/failure keyword under
case-insensitive matching". -/
def HasErrorKeyword (line : String) : Prop :=
  "error".toList <:+: (lowerStr line).toList ∨
  "failed".toList <:+: (lowerStr line).toList ∨
  "no such file or directory".toList <:+: (lowerStr line).toList ∨
  "invalid argument".toList <:+: (lowerStr line).toList

instance (line : String) : Decidable (HasProgressMarker line) := by
  unfold HasProgressMarker
  exact inferInstance

instance (line : String) : Decidable (HasErrorKeyword line) := by
  unfold HasErrorKeyword
  exact inferInstance

/-- The executable substring test agrees with the infix relation. -/
theorem strContains_iff (s pat : String) :
    strContains s pat = true ↔ pat.toList <:+: s.toList := by
  rw [List.infix_iff_prefix_suffix]
  simp only [strContains, List.any_eq_true, List.mem_tails, List.isPrefixOf_iff_prefix]
  exact ⟨fun ⟨t, h1, h2⟩ => ⟨t, h2, h1⟩, fun ⟨t, h1, h2⟩ => ⟨t, h2, h1⟩⟩

/-- C7: a line with a progress marker is informational; otherwise a line
with an error/failure keyword (case-insensitively) is a warning; every
other line is debug. -/
theorem C7_line_classification (line : String) :
    (HasProgressMarker line → classify_line line = LogLevel.info) ∧
    (¬HasProgressMarker line → HasErrorKeyword line →
      classify_line line = LogLevel.warning) ∧
    (¬HasProgressMarker line → ¬HasErrorKeyword line →
      classify_line line = LogLevel.debug) := by
  have hprog : (strContains line "frame=" || strContains line "speed=") = true ↔
      HasProgressMarker line := by
    simp [HasProgressMarker, strContains_iff]
  have herr : (strContains (lowerStr line) "error" || strContains (lowerStr line) "failed" ||
      strContains (lowerStr line) "no such file or directory" ||
      strContains (lowerStr line) "invalid argument") = true ↔ HasErrorKeyword line := by
    simp [HasErrorKeyword, strContains_iff, or_assoc]
  refine ⟨fun h => ?_, fun h1 h2 => ?_, fun h1 h2 => ?_⟩
  · rw [classify_line, if_pos (hprog.mpr h)]
  · rw [classify_line, if_neg ?_, if_pos (herr.mpr h2)]
    intro hc
    exact h1 (hprog.mp hc)
  · rw [classify_line, if_neg ?_, if_neg ?_]
    · intro hc
      exact h2 (herr.mp hc)
    · intro hc
      exact h1 (hprog.mp hc)

/-- Witness for C7 at the spec's scenario lines: `frame=` progress,
`Invalid argument` warning, and an ordinary line. -/
theorem C7_line_classification_witness :
    (HasProgressMarker "frame=  100 fps= 20" ∧
      classify_line "frame=  100 fps= 20" = LogLevel.info) ∧
    (¬HasProgressMarker "rtsp: Invalid argument" ∧
      HasErrorKeyword "rtsp: Invalid argument" ∧
      classify_line "rtsp: Invalid argument" = LogLevel.warning) ∧
    (¬HasProgressMarker "Stream mapping:" ∧ ¬HasErrorKeyword "Stream mapping:" ∧
      classify_line "Stream mapping:" = LogLevel.debug) :=
  ⟨⟨by decide, (C7_line_classification "frame=  100 fps= 20").1 (by decide)⟩,
   ⟨by decide, by decide,
     (C7_line_classification "rtsp: Invalid argument").2.1 (by decide) (by decide)⟩,
   ⟨by decide, by decide,
     (C7_line_classification "Stream mapping:").2.2 (by decide) (by decide)⟩⟩

/-- C10: the progress check dominates — a line containing both a progress
marker and an error keyword is logged as informational, not as a
warning. -/
theorem C10_progress_dominates (line : String) (h1 : HasProgressMarker line)
    (h2 : HasErrorKeyword line) :
    classify_line line = LogLevel.info ∧ classify_line line ≠ LogLevel.warning := by
  have hprog : (strContains line "frame=" || strContains line "speed=") = true := by
    simpa [HasProgressMarker, strContains_iff] using h1
  rw [classify_line, if_pos hprog]
  exact ⟨rfl, by intro h; cases h⟩

/-- Witness for C10 at a line carrying both `frame=` and `error`. -/
theorem C10_progress_dominates_witness :
    HasProgressMarker "frame=  10 error while decoding" ∧
    HasErrorKeyword "frame=  10 error while decoding" ∧
    classify_line "frame=  10 error while decoding" = LogLevel.info ∧
    classify_line "frame=  10 error while decoding" ≠ LogLevel.warning :=
  ⟨by decide, by decide,
    (C10_progress_dominates "frame=  10 error while decoding" (by decide) (by decide)).1,
    (C10_progress_dominates "frame=  10 error while decoding" (by decide) (by decide)).2⟩

end Transcode

namespace Transcode

/-- Witness for C4 at the selection `["high", "bogus", "high"]`: the valid
name resolves twice in order, the unknown one is warned about, and a
resolved profile is a registry entry. -/
theorem C4_resolver_order_preserving_witness :
    (resolveProfiles ["high", "bogus", "high"]).1.map (fun p => p.name) =
      ["high", "high"] ∧
    (resolveProfiles ["high", "bogus", "high"]).2 = ["bogus"] ∧
    highProfile ∈ ALL_STREAM_PROFILES :=
  ⟨(C4_resolver_order_preserving ["high", "bogus", "high"]).1.trans (by decide),
   (C4_resolver_order_preserving ["high", "bogus", "high"]).2.1.trans (by decide),
   (C4_resolver_order_preserving ["high", "bogus", "high"]).2.2 highProfile
     (by decide)⟩

end Transcode
